import Mathlib

/-!
Verification of the Steam web-API client core (src/steam/steam-api.c).

The JSON document model and the steam-util JSON helpers are collaborators
declared outside the file under src/; the helpers are modelled from the
specification (each such definition is marked "Modelled from the spec").
Everything else is translated directly from steam-api.c.

Conventions of the embedding:
- C strings that may be NULL become Option String; a NULL pointer is none.
- A C variable left uninitialized on some path (the reused str out
  parameter of the json helpers) is modelled as an indeterminate
  Option String value (none); no claim depends on such a path.
- The HTTP transport is external; the observable effects on it are
  modelled as an explicit HttpQueue value (paused flag plus the list of
  requests handed to the transport) threaded through the callbacks.
-/

/-- A parsed JSON value, as produced by the external JSON parser
(json_value of the json-parser collaborator). -/
inductive JVal where
  | jstr (s : String)
  | jint (n : Int)
  | jobj (fields : List (String × JVal))
  | jarr (elems : List JVal)

/-- Modelled from the spec: object-field lookup of the external json
library (the lookup inside steam_util_json_val, steam-util.c, which is not
under src/): the first entry with an exactly matching name; lookups on a
non-object value fail. -/
def jlookup (j : JVal) (name : String) : Option JVal :=
  match j with
  | .jobj fields => (fields.find? (fun f => f.1 == name)).map (fun f => f.2)
  | _ => none

/-- Modelled from the spec: steam_util_json_str (steam-util.c, not under
src/): the string value of the named field when present with string type. -/
def steam_util_json_str (j : JVal) (name : String) : Option String :=
  match jlookup j name with
  | some (.jstr s) => some s
  | _ => none

/-- Modelled from the spec: steam_util_json_int (steam-util.c, not under
src/): the integer value of the named field when present with integer
type. -/
def steam_util_json_int (j : JVal) (name : String) : Option Int :=
  match jlookup j name with
  | some (.jint n) => some n
  | _ => none

/-- Modelled from the spec: steam_util_json_val with json_array
(steam-util.c, not under src/): the element list of the named field when
present with array type. -/
def steam_util_json_arr (j : JVal) (name : String) : Option (List JVal) :=
  match jlookup j name with
  | some (.jarr a) => some a
  | _ => none

/-- Modelled from the spec: steam_util_json_scmp (steam-util.c, not under
src/): true exactly when the named string field is present, the match
string is non-null, and the two are equal (the spec says "equals" for
every use site: error against OK, relationship against friend,
steamid_from against the own account id, x_errorcode against the guard
sentinel). -/
def steam_util_json_scmp (j : JVal) (name : String) (mtch : Option String) : Bool :=
  match steam_util_json_str j name, mtch with
  | some s, some m => s == m
  | _, _ => false

/-- ASCII lower-casing of one character (g_ascii_tolower of glib, an
external collaborator). -/
def asciiLower (c : Char) : Char :=
  if 'A' ≤ c ∧ c ≤ 'Z' then Char.ofNat (c.toNat + 32) else c

/-- Case-insensitive ASCII string equality, g_ascii_strcasecmp(a,b) == 0
(glib, an external collaborator). -/
def strcaseEq (a b : String) : Bool :=
  a.data.map asciiLower == b.data.map asciiLower

/-- SteamState enumeration (steam-api.h); the spec lists the five presence
states Offline, Online, Busy, Away, Snoozing in this order. -/
inductive SteamState where
  | OFFLINE
  | ONLINE
  | BUSY
  | AWAY
  | SNOOZE
  deriving DecidableEq, Repr

/-- steam_state_str (steam-api.c lines 778-792): the name table indexed by
state; the enumeration has no out-of-range value in the embedding. -/
def steam_state_str : SteamState → String
  | .OFFLINE => "Offline"
  | .ONLINE => "Online"
  | .BUSY => "Busy"
  | .AWAY => "Away"
  | .SNOOZE => "Snooze"

/-- The enumeration values in their numeric order, as iterated by the
lookup loops of steam-api.c. -/
def steam_states : List SteamState :=
  [.OFFLINE, .ONLINE, .BUSY, .AWAY, .SNOOZE]

/-- steam_state_from_str (steam-api.c lines 812-828): NULL maps to
Offline; otherwise the first state whose name matches case-insensitively;
no match maps to Offline. -/
def steam_state_from_str (state : Option String) : SteamState :=
  match state with
  | none => .OFFLINE
  | some s =>
    match steam_states.find? (fun st => strcaseEq s (steam_state_str st)) with
    | some st => st
    | none => .OFFLINE

/-- SteamMessageType enumeration (steam-api.h); LAST is the sentinel for
an unknown kind. -/
inductive SteamMessageType where
  | SAYTEXT
  | EMOTE
  | LEFT_CONV
  | RELATIONSHIP
  | STATE
  | TYPING
  | LAST
  deriving DecidableEq, Repr

/-- steam_message_type_str (steam-api.c lines 761-776): the name table;
the LAST sentinel has no table entry and yields the empty string. -/
def steam_message_type_str : SteamMessageType → String
  | .SAYTEXT => "saytext"
  | .EMOTE => "emote"
  | .LEFT_CONV => "leftconversation"
  | .RELATIONSHIP => "personarelationship"
  | .STATE => "personastate"
  | .TYPING => "typing"
  | .LAST => ""

/-- The six real message kinds, iterated by steam_message_type_from_str.
The C loop iterates enum values in numeric order; all six names are
pairwise distinct even case-insensitively, so the first match is the only
match and the list order is immaterial. -/
def steam_message_types : List SteamMessageType :=
  [.SAYTEXT, .EMOTE, .LEFT_CONV, .RELATIONSHIP, .STATE, .TYPING]

/-- steam_message_type_from_str (steam-api.c lines 794-810): NULL maps to
the LAST sentinel; otherwise the first kind whose name matches
case-insensitively; no match maps to LAST. -/
def steam_message_type_from_str (t : Option String) : SteamMessageType :=
  match t with
  | none => .LAST
  | some s =>
    match steam_message_types.find? (fun ty => strcaseEq s (steam_message_type_str ty)) with
    | some ty => ty
    | none => .LAST

/-- SteamApiError kinds (steam-api.h). -/
inductive SteamErrorKind where
  | AUTH
  | AUTH_REQ
  | FRIENDS
  | LOGON
  | RELOGON
  | LOGOFF
  | MESSAGE
  | POLL
  | SUMMARIES
  | PARSER
  deriving DecidableEq, Repr

/-- A domain error as set by g_set_error in the parse callbacks: kind plus
the message text; none models an indeterminate message (the C code passes
a possibly uninitialized pointer on such paths). -/
structure SteamError where
  kind : SteamErrorKind
  msg : Option String
  deriving DecidableEq, Repr

/-- The Session (struct SteamApi fields of steam-api.h used by the
callbacks): token, umqid, steamid and the last-seen message id lmid. -/
structure SteamApi where
  token : Option String
  umqid : Option String
  steamid : Option String
  lmid : Int
  deriving DecidableEq, Repr

/-- The request types of the dispatch table (enum SteamApiType). -/
inductive SteamApiType where
  | AUTH
  | FRIENDS
  | LOGON
  | RELOGON
  | LOGOFF
  | MESSAGE
  | POLL
  | SUMMARIES
  deriving DecidableEq, Repr

/-- A request handed to the transport, as far as the claims observe it:
its type and whether a caller continuation is attached (steam_api_relogon
creates its context with func = NULL). -/
structure SentReq where
  rtype : SteamApiType
  hasFunc : Bool
  deriving DecidableEq, Repr

/-- The observable state of the outbound HTTP layer: the queue paused flag
(steam_http_queue_pause) and the requests handed to the transport. -/
structure HttpQueue where
  paused : Bool
  sent : List SentReq
  deriving DecidableEq, Repr

/-- steam_api_relogon (steam-api.c lines 542-563): builds a Relogon
request with no caller continuation, pauses the outbound queue, and hands
the request to the transport. -/
def steam_api_relogon (http : HttpQueue) : HttpQueue :=
  { paused := true, sent := http.sent ++ [⟨.RELOGON, false⟩] }

/-- Outcome of a pass/fail parse callback: the HTTP layer state, the
error slot, the deliver-now flag it returns to steam_api_cb, and whether
steam_http_req_resend was invoked on the triggering request. -/
structure CbOutcome where
  http : HttpQueue
  err : Option SteamError := none
  deliver : Bool := true
  resent : Bool := false
  deriving DecidableEq, Repr

/-- steam_api_message_cb (steam-api.c lines 250-266). When the error field
is absent the C code compares an uninitialized pointer against
"Not Logged On"; that path is modelled as the failure branch with an
indeterminate message. -/
def steam_api_message_cb (http : HttpQueue) (j : JVal) : CbOutcome :=
  if steam_util_json_scmp j "error" (some "OK") then
    { http := http }
  else
    match steam_util_json_str j "error" with
    | some s =>
      if strcaseEq s "Not Logged On" then
        { http := steam_api_relogon http, deliver := false, resent := true }
      else
        { http := http, err := some ⟨.MESSAGE, some s⟩ }
    | none =>
      { http := http, err := some ⟨.MESSAGE, none⟩ }

/-- steam_api_relogon_cb (steam-api.c lines 224-236): unpauses the queue
first, then tests the error field. -/
def steam_api_relogon_cb (http : HttpQueue) (j : JVal) : CbOutcome :=
  let http1 : HttpQueue := { http with paused := false }
  if steam_util_json_scmp j "error" (some "OK") then
    { http := http1 }
  else
    { http := http1, err := some ⟨.RELOGON, steam_util_json_str j "error"⟩ }

/-- steam_api_cb continuation dispatch (steam-api.c lines 443-463): the
caller continuation fires exactly when the parse callback returned
deliver-now = true and a continuation is attached. -/
def steam_api_cb_deliver (callf hasFunc : Bool) : Bool :=
  callf && hasFunc

/-- steam_api_auth_cb (steam-api.c lines 139-159). The str out parameter
is threaded through the helper calls: after the x_errorcode comparison it
holds that field value when present, and the error_description lookup
overwrites it when present. -/
def steam_api_auth_cb (api : SteamApi) (j : JVal) : SteamApi × Option SteamError :=
  match steam_util_json_str j "access_token" with
  | some t => ({ api with token := some t }, none)
  | none =>
    let kind : SteamErrorKind :=
      if steam_util_json_scmp j "x_errorcode" (some "steamguard_code_required")
      then .AUTH_REQ else .AUTH
    let str0 := steam_util_json_str j "x_errorcode"
    let msg := (steam_util_json_str j "error_description").orElse (fun _ => str0)
    (api, some ⟨kind, msg⟩)

/-- steam_api_logon_cb (steam-api.c lines 199-222). The str out parameter
threading is made explicit: after the successful error comparison it holds
"OK"; each subsequent json_str lookup overwrites it only when the field is
present, and a failed scmp with an absent field copies the stale value
into the session (faithful to the C assignment from str). -/
def steam_api_logon_cb (api : SteamApi) (j : JVal) : SteamApi × Option SteamError :=
  let str0 := steam_util_json_str j "error"
  if steam_util_json_scmp j "error" (some "OK") then
    let api1 :=
      match steam_util_json_int j "message" with
      | some n => { api with lmid := n }
      | none => api
    let str1 := (steam_util_json_str j "steamid").orElse (fun _ => str0)
    let api2 :=
      if steam_util_json_scmp j "steamid" api1.steamid then api1
      else { api1 with steamid := str1 }
    let str2 := (steam_util_json_str j "umqid").orElse (fun _ => str1)
    let api3 :=
      if steam_util_json_scmp j "umqid" api2.umqid then api2
      else { api2 with umqid := str2 }
    (api3, none)
  else
    (api, some ⟨.LOGON, str0⟩)

/-- The g_slist_prepend accumulation step shared by the friends and poll
collection loops: prepend the extracted element, when any. -/
def prependStep {α β : Type} (f : α → Option β) (acc : List β) (x : α) : List β :=
  match f x with
  | some b => b :: acc
  | none => acc

/-- steam_api_friends_cb entry selection (steam-api.c lines 175-185, the
loop body): the entry contributes its steamid only when its relationship
field equals "friend" and the steamid field is present. -/
def steam_api_friends_pick (je : JVal) : Option String :=
  if steam_util_json_scmp je "relationship" (some "friend") then
    steam_util_json_str je "steamid"
  else
    none

/-- steam_api_friends_cb (steam-api.c lines 161-197): collect the ids by
g_slist_prepend (hence reversed), deliver them when non-empty, otherwise
set the FriendsEmpty error; a missing or non-array friends field takes the
same error path. -/
def steam_api_friends_cb (j : JVal) : List String × Option SteamError :=
  match steam_util_json_arr j "friends" with
  | none => ([], some ⟨.FRIENDS, some "Empty friends list"⟩)
  | some arr =>
    let fl := arr.foldl (prependStep steam_api_friends_pick) []
    if fl.isEmpty then
      (fl, some ⟨.FRIENDS, some "Empty friends list"⟩)
    else
      (fl, none)

/-- One delivered poll message (struct SteamMessage of steam-api.h); the
struct is zeroed before population, so absent fields are none and the
state defaults to 0. -/
structure SteamMessage where
  mtype : SteamMessageType
  steamid : Option String := none
  text : Option String := none
  nick : Option String := none
  state : Int := 0
  deriving DecidableEq, Repr

/-- steam_api_poll_cb message-loop body (steam-api.c lines 302-343): skip
the entry when steamid_from equals the own account id, when the type field
is absent or names no known kind, or when a field required by the kind is
missing (text for SAYTEXT and EMOTE; persona_name and, by fallthrough,
persona_state for STATE; persona_state for RELATIONSHIP). -/
def steam_api_poll_entry (own : Option String) (je : JVal) : Option SteamMessage :=
  if steam_util_json_scmp je "steamid_from" own then
    none
  else
    let sid := steam_util_json_str je "steamid_from"
    match steam_util_json_str je "type" with
    | none => none
    | some t =>
      let ty := steam_message_type_from_str (some t)
      match ty with
      | .SAYTEXT | .EMOTE =>
        match steam_util_json_str je "text" with
        | none => none
        | some tx => some { mtype := ty, steamid := sid, text := some tx }
      | .STATE =>
        match steam_util_json_str je "persona_name" with
        | none => none
        | some nk =>
          match steam_util_json_int je "persona_state" with
          | none => none
          | some st => some { mtype := ty, steamid := sid, nick := some nk, state := st }
      | .RELATIONSHIP =>
        match steam_util_json_int je "persona_state" with
        | none => none
        | some st => some { mtype := ty, steamid := sid, state := st }
      | .TYPING | .LEFT_CONV => some { mtype := ty, steamid := sid }
      | .LAST => none

/-- steam_api_poll_cb message collection (steam-api.c lines 300-345):
g_slist_prepend per kept entry, then g_slist_reverse, so the delivered
list preserves entry order. -/
def steam_api_poll_messages (own : Option String) (entries : List JVal) : List SteamMessage :=
  (entries.foldl (prependStep (steam_api_poll_entry own)) []).reverse

/-- Outcome of steam_api_poll_cb: the session, HTTP layer, error slot,
extracted message list (none when rdata stays NULL), deliver-now flag and
resend flag. -/
structure PollOutcome where
  api : SteamApi
  http : HttpQueue
  err : Option SteamError := none
  rdata : Option (List SteamMessage) := none
  deliver : Bool := true
  resent : Bool := false
  deriving DecidableEq, Repr

/-- steam_api_poll_cb (steam-api.c lines 268-348): first overwrite lmid
from messagelast when present; then, if an error field is present and is
neither Timeout nor OK, either take the silent-retry path (Not Logged On)
or set PollFailed; otherwise extract the message list when the messages
array is present. -/
def steam_api_poll_cb (api : SteamApi) (http : HttpQueue) (j : JVal) : PollOutcome :=
  let api1 :=
    match steam_util_json_int j "messagelast" with
    | some n => { api with lmid := n }
    | none => api
  match steam_util_json_str j "error" with
  | some s =>
    if !strcaseEq s "Timeout" && !strcaseEq s "OK" then
      if strcaseEq s "Not Logged On" then
        { api := api1, http := steam_api_relogon http, deliver := false, resent := true }
      else
        { api := api1, http := http, err := some ⟨.POLL, some s⟩ }
    else
      match steam_util_json_arr j "messages" with
      | none => { api := api1, http := http }
      | some entries =>
        { api := api1, http := http,
          rdata := some (steam_api_poll_messages api1.steamid entries) }
  | none =>
    match steam_util_json_arr j "messages" with
    | none => { api := api1, http := http }
    | some entries =>
      { api := api1, http := http,
        rdata := some (steam_api_poll_messages api1.steamid entries) }

/-- steam_api_summaries chunking loop (steam-api.c lines 680-716),
translated step for step. One iteration takes the first min(100, length)
ids of s as a chunk (joined by commas into the steamids parameter) and
sends one request; e is the first node after the chunk. When e is NULL the
loop breaks; otherwise the next iteration starts at e->next, which skips
the node e itself. Re-entering the loop with s == NULL dereferences
s->data: that undefined behavior is the none result. The fuel argument
only bounds the recursion and is called with the list length, which every
iteration (consuming at least 101 elements) keeps sufficient, so the
fuel-exhaustion case is unreachable from steam_api_summaries. -/
def steam_api_summaries_loop : Nat → List String → Option (List (List String))
  | _, [] => none
  | 0, _ :: _ => none
  | fuel + 1, x :: xs =>
    let chunk := (x :: xs).take 100
    match (x :: xs).drop 100 with
    | [] => some [chunk]
    | _ :: rest => (steam_api_summaries_loop fuel rest).map (fun r => chunk :: r)

/-- Observable outcome of steam_api_summaries: the id groups of the
requests handed to the transport (none models the undefined behavior of
the loop), and whether the continuation was invoked immediately (the
empty-list short-circuit calls func with a NULL list and NULL error). -/
structure SummariesRun where
  requests : Option (List (List String))
  immediate : Bool
  deriving DecidableEq, Repr

/-- steam_api_summaries (steam-api.c lines 655-717): NULL friends list
short-circuits, invoking the continuation immediately when present and
sending nothing; otherwise the chunking loop runs. -/
def steam_api_summaries (friends : List String) (hasFunc : Bool) : SummariesRun :=
  match friends with
  | [] => { requests := some [], immediate := hasFunc }
  | _ :: _ =>
    { requests := steam_api_summaries_loop friends.length friends, immediate := false }

/-- The message request as built by steam_api_message before sending:
session credentials, destination, type parameter and the optional text
parameter; message sends are queued. -/
structure MsgRequest where
  accessToken : Option String
  umqid : Option String
  steamid_dst : Option String
  typeParam : String
  text : Option String
  queued : Bool
  deriving DecidableEq, Repr

/-- Result of the steam_api_message builder: the request handed to the
transport, if any, and whether the caller continuation was invoked
synchronously (it never is; completion is only reported through
steam_api_cb for a sent request). -/
structure MessageSendResult where
  request : Option MsgRequest
  contInvoked : Bool
  deriving DecidableEq, Repr

/-- steam_api_message (steam-api.c lines 586-625): SAYTEXT and EMOTE add
the text parameter, TYPING sends as is, and every other kind frees the
request and returns before sending; no path invokes the continuation. -/
def steam_api_message (api : SteamApi) (sm : SteamMessage) : MessageSendResult :=
  match sm.mtype with
  | .SAYTEXT | .EMOTE =>
    { request := some ⟨api.token, api.umqid, sm.steamid,
                       steam_message_type_str sm.mtype, sm.text, true⟩,
      contInvoked := false }
  | .TYPING =>
    { request := some ⟨api.token, api.umqid, sm.steamid,
                       steam_message_type_str sm.mtype, none, true⟩,
      contInvoked := false }
  | _ => { request := none, contInvoked := false }

/-- Helper: a foldl that prepends each extracted element equals the
reversed filterMap, the shape shared by the friends and poll collection
loops (g_slist_prepend based). -/
theorem foldl_prepend_filterMap {α β : Type} (f : α → Option β) (l : List α) (acc : List β) :
    l.foldl (prependStep f) acc = (l.filterMap f).reverse ++ acc := by
  induction l generalizing acc with
  | nil => simp
  | cons x xs ih =>
    cases h : f x with
    | none => simp [prependStep, h, ih, List.filterMap_cons]
    | some b => simp [prependStep, h, ih, List.filterMap_cons]

/-- An empty session fixture used by the concrete witnesses. -/
def apiEmpty : SteamApi := ⟨none, none, none, 0⟩

/-- C9: steam_state_from_str is a left inverse of steam_state_str on every
enumerated presence state, and any string matching no state name, as well
as NULL, maps to Offline. -/
theorem steam_state_round_trip :
    (∀ s : SteamState, steam_state_from_str (some (steam_state_str s)) = s) ∧
    (∀ str : String,
        (∀ s : SteamState, strcaseEq str (steam_state_str s) = false) →
        steam_state_from_str (some str) = .OFFLINE) ∧
    steam_state_from_str none = .OFFLINE := by
  refine ⟨?_, ?_, rfl⟩
  · intro s
    cases s <;> decide
  · intro str h
    have hf : steam_states.find? (fun st => strcaseEq str (steam_state_str st)) = none := by
      rw [List.find?_eq_none]
      intro st _
      simp [h st]
    simp [steam_state_from_str, hf]

/-- Witness for C9 at the unknown string "xyzzy". -/
theorem steam_state_round_trip_witness :
    strcaseEq "xyzzy" (steam_state_str .ONLINE) = false ∧
    steam_state_from_str (some "xyzzy") = .OFFLINE :=
  ⟨by decide, steam_state_round_trip.2.1 "xyzzy" (by intro s; cases s <;> decide)⟩

/-- C10: steam_api_message with a kind other than SAYTEXT, EMOTE or TYPING
hands no request to the transport and never invokes the continuation. -/
theorem steam_api_message_unsupported_aborts
    (api : SteamApi) (sm : SteamMessage)
    (h1 : sm.mtype ≠ .SAYTEXT) (h2 : sm.mtype ≠ .EMOTE) (h3 : sm.mtype ≠ .TYPING) :
    (steam_api_message api sm).request = none ∧
    (steam_api_message api sm).contInvoked = false := by
  cases h : sm.mtype <;> simp_all [steam_api_message]

/-- Witness for C10 at a LEFT_CONV message. -/
theorem steam_api_message_unsupported_aborts_witness :
    (SteamMessage.mk .LEFT_CONV none none none 0).mtype ≠ .SAYTEXT ∧
    (steam_api_message apiEmpty ⟨.LEFT_CONV, none, none, none, 0⟩).request = none ∧
    (steam_api_message apiEmpty ⟨.LEFT_CONV, none, none, none, 0⟩).contInvoked = false :=
  ⟨by decide,
   steam_api_message_unsupported_aborts apiEmpty ⟨.LEFT_CONV, none, none, none, 0⟩
     (by decide) (by decide) (by decide)⟩

/-- C8: the Auth callback stores a present access token in the session and
sets no error; with the token absent, the error kind is AUTH_REQ exactly
when the x_errorcode field equals the steam-guard sentinel and AUTH
otherwise, and the message carries the error_description field when
present. -/
theorem steam_api_auth_cb_spec (api : SteamApi) (j : JVal) :
    (∀ t, steam_util_json_str j "access_token" = some t →
        (steam_api_auth_cb api j).1.token = some t ∧
        (steam_api_auth_cb api j).2 = none) ∧
    (∀ d, steam_util_json_str j "access_token" = none →
        steam_util_json_str j "error_description" = some d →
        (steam_api_auth_cb api j).2 =
          some ⟨(if steam_util_json_scmp j "x_errorcode" (some "steamguard_code_required")
                 then .AUTH_REQ else .AUTH), some d⟩) := by
  constructor
  · intro t ht
    simp [steam_api_auth_cb, ht]
  · intro d hn hd
    simp [steam_api_auth_cb, hn, hd, Option.orElse]

/-- A fixture for the C8 scenario body. -/
def jAuthGuard : JVal :=
  JVal.jobj [("x_errorcode", JVal.jstr "steamguard_code_required"),
             ("error_description", JVal.jstr "need code")]

/-- Witness for C8 at the spec scenario body. -/
theorem steam_api_auth_cb_spec_witness :
    steam_util_json_str jAuthGuard "access_token" = none ∧
    steam_util_json_scmp jAuthGuard "x_errorcode" (some "steamguard_code_required") = true ∧
    (steam_api_auth_cb apiEmpty jAuthGuard).2 = some ⟨.AUTH_REQ, some "need code"⟩ :=
  ⟨by decide, by decide, by
    have h := (steam_api_auth_cb_spec apiEmpty jAuthGuard).2 "need code" (by decide) (by decide)
    simpa [show steam_util_json_scmp jAuthGuard "x_errorcode"
             (some "steamguard_code_required") = true from by decide] using h⟩

/-- C2: the Relogon callback unpauses the outbound queue on every outcome,
and any present non-OK error value yields a RELOGON error carrying the
server string. -/
theorem steam_api_relogon_cb_spec (http : HttpQueue) (j : JVal) :
    (steam_api_relogon_cb http j).http.paused = false ∧
    (∀ s, steam_util_json_str j "error" = some s → s ≠ "OK" →
        (steam_api_relogon_cb http j).err = some ⟨.RELOGON, some s⟩) := by
  constructor
  · by_cases hc : steam_util_json_scmp j "error" (some "OK") <;>
      simp [steam_api_relogon_cb, hc]
  · intro s hs hok
    have hb : (s == "OK") = false := beq_eq_false_iff_ne.mpr hok
    have hc : steam_util_json_scmp j "error" (some "OK") = false := by
      simp [steam_util_json_scmp, hs, hb]
    simp [steam_api_relogon_cb, hc, hs]

/-- A fixture for a failed Relogon response body. -/
def jRelogonFail : JVal := JVal.jobj [("error", JVal.jstr "Something went wrong")]

/-- Witness for C2 at a paused queue and a failing body. -/
theorem steam_api_relogon_cb_spec_witness :
    steam_util_json_str jRelogonFail "error" = some "Something went wrong" ∧
    (steam_api_relogon_cb ⟨true, []⟩ jRelogonFail).http.paused = false ∧
    (steam_api_relogon_cb ⟨true, []⟩ jRelogonFail).err =
      some ⟨.RELOGON, some "Something went wrong"⟩ :=
  ⟨by decide, (steam_api_relogon_cb_spec ⟨true, []⟩ jRelogonFail).1,
   (steam_api_relogon_cb_spec ⟨true, []⟩ jRelogonFail).2 "Something went wrong"
     (by decide) (by decide)⟩

/-- C1: a SendMessage response whose error field is Not Logged On
(case-insensitively) pauses the queue, sends exactly one Relogon request
with no caller continuation, resends the triggering request, returns
deliver-now = false with no error set, and so the dispatcher does not
invoke the continuation for the attempt. -/
theorem steam_api_message_cb_not_logged_on
    (http : HttpQueue) (j : JVal) (s : String)
    (hs : steam_util_json_str j "error" = some s)
    (hn : strcaseEq s "Not Logged On" = true) :
    (steam_api_message_cb http j).http.paused = true ∧
    (steam_api_message_cb http j).http.sent = http.sent ++ [⟨.RELOGON, false⟩] ∧
    (steam_api_message_cb http j).resent = true ∧
    (steam_api_message_cb http j).deliver = false ∧
    (steam_api_message_cb http j).err = none ∧
    steam_api_cb_deliver (steam_api_message_cb http j).deliver true = false := by
  have hok : s ≠ "OK" := by
    intro he
    rw [he] at hn
    exact absurd hn (by decide)
  have hb : (s == "OK") = false := beq_eq_false_iff_ne.mpr hok
  have hc : steam_util_json_scmp j "error" (some "OK") = false := by
    simp [steam_util_json_scmp, hs, hb]
  simp [steam_api_message_cb, hc, hs, hn, steam_api_relogon, steam_api_cb_deliver]

/-- A fixture for the C1 scenario body. -/
def jNotLoggedOn : JVal := JVal.jobj [("error", JVal.jstr "Not Logged On")]

/-- Witness for C1 at the spec scenario body on an idle queue. -/
theorem steam_api_message_cb_not_logged_on_witness :
    steam_util_json_str jNotLoggedOn "error" = some "Not Logged On" ∧
    strcaseEq "Not Logged On" "Not Logged On" = true ∧
    ((steam_api_message_cb ⟨false, []⟩ jNotLoggedOn).http.paused = true ∧
     (steam_api_message_cb ⟨false, []⟩ jNotLoggedOn).http.sent =
       ([] : List SentReq) ++ [⟨.RELOGON, false⟩] ∧
     (steam_api_message_cb ⟨false, []⟩ jNotLoggedOn).resent = true ∧
     (steam_api_message_cb ⟨false, []⟩ jNotLoggedOn).deliver = false ∧
     (steam_api_message_cb ⟨false, []⟩ jNotLoggedOn).err = none ∧
     steam_api_cb_deliver (steam_api_message_cb ⟨false, []⟩ jNotLoggedOn).deliver true = false) :=
  ⟨by decide, by decide,
   steam_api_message_cb_not_logged_on ⟨false, []⟩ jNotLoggedOn "Not Logged On"
     (by decide) (by decide)⟩

/-- Helper: the session returned by steam_api_poll_cb is the input session
with lmid overwritten by the messagelast field exactly when that field is
present; no later branch of the callback touches the session. -/
theorem steam_api_poll_cb_api (api : SteamApi) (http : HttpQueue) (j : JVal) :
    (steam_api_poll_cb api http j).api =
      match steam_util_json_int j "messagelast" with
      | some n => { api with lmid := n }
      | none => api := by
  unfold steam_api_poll_cb
  rcases h1 : steam_util_json_int j "messagelast" with _ | n <;>
    rcases h2 : steam_util_json_str j "error" with _ | s <;>
    simp only [h1, h2] <;>
    repeat' first
      | rfl
      | split

/-- C4: the Poll callback stores a present messagelast value into lmid on
every control path, including the PollFailed and silent-retry paths. -/
theorem steam_api_poll_cb_always_stores_messagelast
    (api : SteamApi) (http : HttpQueue) (j : JVal) (n : Int)
    (h : steam_util_json_int j "messagelast" = some n) :
    (steam_api_poll_cb api http j).api.lmid = n := by
  rw [steam_api_poll_cb_api, h]

/-- A fixture for a Poll body carrying messagelast and a fatal error. -/
def jPollFail : JVal :=
  JVal.jobj [("messagelast", JVal.jint 42), ("error", JVal.jstr "FAIL")]

/-- Witness for C4: the body yields a POLL error, yet lmid is stored. -/
theorem steam_api_poll_cb_always_stores_messagelast_witness :
    steam_util_json_int jPollFail "messagelast" = some 42 ∧
    (steam_api_poll_cb apiEmpty ⟨false, []⟩ jPollFail).err = some ⟨.POLL, some "FAIL"⟩ ∧
    (steam_api_poll_cb apiEmpty ⟨false, []⟩ jPollFail).api.lmid = 42 :=
  ⟨by decide, by decide,
   steam_api_poll_cb_always_stores_messagelast apiEmpty ⟨false, []⟩ jPollFail 42 (by decide)⟩

/-- A session fixture whose last message id is 5. -/
def apiLmid5 : SteamApi := ⟨none, none, none, 5⟩

/-- A Poll body whose messagelast is smaller than the current lmid. -/
def jMsgLast3 : JVal := JVal.jobj [("messagelast", JVal.jint 3)]

/-- C3 counterexample: a Poll response whose messagelast is smaller than
the current lmid decreases lmid, so lastMessageId is not monotonically
non-decreasing under the Poll callback. -/
theorem steam_api_poll_cb_lmid_decreases :
    apiLmid5.lmid = 5 ∧
    (steam_api_poll_cb apiLmid5 ⟨false, []⟩ jMsgLast3).api.lmid = 3 ∧
    (3 : Int) < 5 := by
  refine ⟨by decide, by decide, by decide⟩

/-- C3 (amended): the Poll callback overwrites lmid with the messagelast
value exactly when present, and the Logon callback overwrites lmid with
the message value exactly when the response is OK and the field present;
in every other case lmid is unchanged. Monotonicity therefore holds only
when the server-supplied values are non-decreasing. -/
theorem steam_api_lmid_overwrite
    (api : SteamApi) (http : HttpQueue) (j : JVal) :
    (∀ n, steam_util_json_int j "messagelast" = some n →
        (steam_api_poll_cb api http j).api.lmid = n) ∧
    (steam_util_json_int j "messagelast" = none →
        (steam_api_poll_cb api http j).api.lmid = api.lmid) ∧
    (∀ n, steam_util_json_scmp j "error" (some "OK") = true →
        steam_util_json_int j "message" = some n →
        (steam_api_logon_cb api j).1.lmid = n) ∧
    (steam_util_json_scmp j "error" (some "OK") = true →
        steam_util_json_int j "message" = none →
        (steam_api_logon_cb api j).1.lmid = api.lmid) ∧
    (steam_util_json_scmp j "error" (some "OK") = false →
        (steam_api_logon_cb api j).1.lmid = api.lmid) := by
  refine ⟨?_, ?_, ?_, ?_, ?_⟩
  · intro n h
    rw [steam_api_poll_cb_api, h]
  · intro h
    rw [steam_api_poll_cb_api, h]
  · intro n hok hm
    simp only [steam_api_logon_cb, hok, if_true, hm]
    split <;> split <;> simp
  · intro hok hm
    simp only [steam_api_logon_cb, hok, if_true, hm]
    split <;> split <;> simp
  · intro hok
    simp [steam_api_logon_cb, hok]

/-- A Logon body fixture: OK with both counters present. -/
def jLogonOk : JVal :=
  JVal.jobj [("error", JVal.jstr "OK"), ("messagelast", JVal.jint 3),
             ("message", JVal.jint 7)]

/-- Witness for the amended C3 at a session with lmid 5. -/
theorem steam_api_lmid_overwrite_witness :
    steam_util_json_int jLogonOk "messagelast" = some 3 ∧
    steam_util_json_scmp jLogonOk "error" (some "OK") = true ∧
    (steam_api_poll_cb apiLmid5 ⟨false, []⟩ jLogonOk).api.lmid = 3 ∧
    (steam_api_logon_cb apiLmid5 jLogonOk).1.lmid = 7 :=
  ⟨by decide, by decide,
   (steam_api_lmid_overwrite apiLmid5 ⟨false, []⟩ jLogonOk).1 3 (by decide),
   (steam_api_lmid_overwrite apiLmid5 ⟨false, []⟩ jLogonOk).2.2.1 7 (by decide) (by decide)⟩

/-- C7: every id delivered by the Friends callback stems from an entry of
the friends array whose relationship field equals "friend" and carries
that id as its steamid; an empty result sets the FriendsEmpty error. -/
theorem steam_api_friends_cb_spec (j : JVal) :
    (∀ id, id ∈ (steam_api_friends_cb j).1 →
        ∃ arr je, steam_util_json_arr j "friends" = some arr ∧ je ∈ arr ∧
          steam_util_json_scmp je "relationship" (some "friend") = true ∧
          steam_util_json_str je "steamid" = some id) ∧
    ((steam_api_friends_cb j).1 = [] →
        (steam_api_friends_cb j).2 = some ⟨.FRIENDS, some "Empty friends list"⟩) := by
  rcases h : steam_util_json_arr j "friends" with _ | arr
  · constructor
    · intro id hid
      simp [steam_api_friends_cb, h] at hid
    · intro _
      simp [steam_api_friends_cb, h]
  · have hfst : (steam_api_friends_cb j).1
        = (arr.filterMap steam_api_friends_pick).reverse := by
      simp only [steam_api_friends_cb, h]
      split <;> simp [foldl_prepend_filterMap]
    constructor
    · intro id hid
      rw [hfst, List.mem_reverse, List.mem_filterMap] at hid
      obtain ⟨je, hje, hpick⟩ := hid
      by_cases hsc : steam_util_json_scmp je "relationship" (some "friend")
      · exact ⟨arr, je, rfl, hje, hsc, by
          simpa [steam_api_friends_pick, hsc] using hpick⟩
      · rw [steam_api_friends_pick] at hpick
        simp [hsc] at hpick
    · intro hemp
      rw [hfst] at hemp
      simp only [steam_api_friends_cb, h, foldl_prepend_filterMap, List.append_nil]
      rw [hemp]
      simp

/-- A friends response fixture with one friend entry. -/
def jFriends1 : JVal :=
  JVal.jobj [("friends", JVal.jarr
    [JVal.jobj [("relationship", JVal.jstr "friend"), ("steamid", JVal.jstr "1")]])]

/-- Witness for C7: a delivered id traces back to a friend entry, and the
empty body takes the FriendsEmpty path. -/
theorem steam_api_friends_cb_spec_witness :
    ("1" ∈ (steam_api_friends_cb jFriends1).1) ∧
    (∃ arr je, steam_util_json_arr jFriends1 "friends" = some arr ∧ je ∈ arr ∧
        steam_util_json_scmp je "relationship" (some "friend") = true ∧
        steam_util_json_str je "steamid" = some "1") ∧
    ((steam_api_friends_cb (JVal.jobj [])).1 = []) ∧
    (steam_api_friends_cb (JVal.jobj [])).2 = some ⟨.FRIENDS, some "Empty friends list"⟩ :=
  ⟨by decide, (steam_api_friends_cb_spec jFriends1).1 "1" (by decide),
   by decide, (steam_api_friends_cb_spec (JVal.jobj [])).2 (by decide)⟩

/-- C6: the delivered poll list is the per-entry extraction over the
messages array in order, and an entry is skipped (with the rest still
processed) when its steamid_from equals the own id, when its type names no
known kind, or when a field required by its kind is missing. -/
theorem steam_api_poll_entry_filters (own : Option String) (entries : List JVal) :
    steam_api_poll_messages own entries = entries.filterMap (steam_api_poll_entry own) ∧
    ∀ je : JVal,
      (steam_util_json_scmp je "steamid_from" own = true →
          steam_api_poll_entry own je = none) ∧
      (∀ t, steam_util_json_str je "type" = some t →
          steam_message_type_from_str (some t) = .LAST →
          steam_api_poll_entry own je = none) ∧
      (∀ t, steam_util_json_str je "type" = some t →
          (steam_message_type_from_str (some t) = .SAYTEXT ∨
           steam_message_type_from_str (some t) = .EMOTE) →
          steam_util_json_str je "text" = none →
          steam_api_poll_entry own je = none) ∧
      (∀ t, steam_util_json_str je "type" = some t →
          steam_message_type_from_str (some t) = .STATE →
          steam_util_json_str je "persona_name" = none →
          steam_api_poll_entry own je = none) ∧
      (∀ t, steam_util_json_str je "type" = some t →
          (steam_message_type_from_str (some t) = .STATE ∨
           steam_message_type_from_str (some t) = .RELATIONSHIP) →
          steam_util_json_int je "persona_state" = none →
          steam_api_poll_entry own je = none) := by
  constructor
  · simp [steam_api_poll_messages, foldl_prepend_filterMap]
  · intro je
    refine ⟨?_, ?_, ?_, ?_, ?_⟩
    · intro hsc
      simp [steam_api_poll_entry, hsc]
    · intro t ht hty
      by_cases hsc : steam_util_json_scmp je "steamid_from" own <;>
        simp [steam_api_poll_entry, hsc, ht, hty]
    · intro t ht hty htext
      rcases hty with hty | hty <;>
        by_cases hsc : steam_util_json_scmp je "steamid_from" own <;>
          simp [steam_api_poll_entry, hsc, ht, hty, htext]
    · intro t ht hty hname
      by_cases hsc : steam_util_json_scmp je "steamid_from" own <;>
        simp [steam_api_poll_entry, hsc, ht, hty, hname]
    · intro t ht hty hstate
      rcases hty with hty | hty <;>
        by_cases hsc : steam_util_json_scmp je "steamid_from" own <;>
          cases hpn : steam_util_json_str je "persona_name" <;>
            simp [steam_api_poll_entry, hsc, ht, hty, hstate, hpn]

/-- A poll entry fixture originating from the own account. -/
def jeOwn : JVal := JVal.jobj [("steamid_from", JVal.jstr "7")]

/-- Witness for C6: an entry from the own account id is skipped. -/
theorem steam_api_poll_entry_filters_witness :
    steam_util_json_scmp jeOwn "steamid_from" (some "7") = true ∧
    steam_api_poll_entry (some "7") jeOwn = none :=
  ⟨by decide, ((steam_api_poll_entry_filters (some "7") []).2 jeOwn).1 (by decide)⟩

/-- C5 (code bug): the chunking loop of steam_api_summaries advances past
the node after each 100-id chunk, so with 101 ids the next iteration
dereferences a NULL node (undefined behavior, none), with 102 ids the two
requests cover only 101 ids and the 101st id never appears in any chunk;
the empty-list short-circuit itself behaves as claimed. -/
theorem steam_api_summaries_chunk_bug :
    (steam_api_summaries (List.replicate 101 "x") true).requests = none ∧
    (steam_api_summaries ((List.range 102).map (fun n => toString n)) true).requests
      = some [(List.range 100).map (fun n => toString n), ["101"]] ∧
    steam_api_summaries [] true = { requests := some [], immediate := true } := by
  refine ⟨by decide, by decide, by decide⟩
